import Mathlib

set_option autoImplicit false

/-!
Verification development for the go-nexentastor management client
(`pkg/ns/api.go`, `pkg/ns/types.go`, `pkg/rest/client.go`).

The Go code is shallowly embedded: each provider method becomes a pure
Lean function.  The appliance transport is a parameter of each function
(a static backing collection for the listing endpoints, an outcome table
for the mutating endpoints), so theorems quantify over every possible
remote behaviour.  Go `int` is embedded as `Int`, Go `error` as
`Option GoErr`, and a Go function returning `(T, error)` as either a
pair or an `Except` value as fits the call shape.
-/

/-- `nsFilesystemListLimit` from `pkg/ns/api.go`: NexentaStor filesystem
list limit (the appliance page cap, `MAX_PAGE` in the specification). -/
def nsFilesystemListLimit : Int := 100

/-- `NefError` from the repository: a typed appliance error carrying the
appliance error code and a wrapped message. -/
structure NefError where
  code : String
  message : String
deriving DecidableEq

/-- Embedding of Go `error` values produced by the client: fail-fast
validation errors (`fmt.Errorf` before any request), classified remote
errors (`NefError`), and other generic errors. -/
inductive GoErr where
  | validation (msg : String)
  | remote (e : NefError)
  | generic (msg : String)
deriving DecidableEq

/-- Modelled from the spec (§4.1): `IsAuthNefError` — the predicate source
file is not under `src/`; per the spec it is true exactly when the value is
a classified appliance error whose code is `"EAUTH"`. -/
def IsAuthNefError : Option NefError → Bool
  | some e => e.code = "EAUTH"
  | none => false

/-- Modelled from the spec (§4.1): `IsAlreadyExistNefError` — the predicate
source file is not under `src/`; per the spec it is true exactly when the
error is a classified appliance error whose code is `"EEXIST"`. -/
def IsAlreadyExistNefError : Option GoErr → Bool
  | some (.remote e) => e.code = "EEXIST"
  | _ => false

/-- Modelled from the spec (§4.1): `IsBusyNefError` — the predicate source
file is not under `src/`; per the spec it is true exactly when the error is
a classified appliance error whose code is `"EBUSY"` (resource in use). -/
def IsBusyNefError : Option GoErr → Bool
  | some (.remote e) => e.code = "EBUSY"
  | _ => false

/-- `Filesystem` from `pkg/ns/types.go`. -/
structure Filesystem where
  path : String
  mountPoint : String
  sharedOverNfs : Bool
  sharedOverSmb : Bool
  bytesAvailable : Int
  bytesUsed : Int
  quotaSize : Int
deriving DecidableEq

/-- `Volume` from `pkg/ns/types.go`. -/
structure Volume where
  path : String
  bytesAvailable : Int
  bytesUsed : Int
  volumeSize : Int
deriving DecidableEq

/-- `Share_v1` from `pkg/ns/types.go` (InteliFlash share, the `listShares`
response row).  The Go field `Local` is renamed `localFlag` (`local` is a
Lean keyword). -/
structure Share_v1 where
  poolName : String
  projectName : String
  name : String
  path : String
  mountPoint : String
  availableSize : Int
  totalSize : Int
  localFlag : Bool
deriving DecidableEq

/-- `Share_v1toFilesystem` from `pkg/ns/api.go`: field-by-field conversion;
the quota field keeps the Go zero value. -/
def Share_v1toFilesystem (share : Share_v1) : Filesystem :=
  { path := share.path
    mountPoint := share.mountPoint
    bytesAvailable := share.availableSize
    bytesUsed := share.totalSize
    sharedOverNfs := false
    sharedOverSmb := false
    quotaSize := 0 }

/-- Character-level worker for `splitPath` (structural recursion, so that
closed calls reduce definitionally). -/
def splitOnSlash : List Char → List Char → List String
  | [], acc => [String.mk acc.reverse]
  | c :: cs, acc =>
    if c = '/' then String.mk acc.reverse :: splitOnSlash cs []
    else splitOnSlash cs (c :: acc)

/-- `strings.Split(s, os.PathSeparator)` with the Unix separator, as used
for path validation throughout `pkg/ns/api.go`. -/
def splitPath (s : String) : List String := splitOnSlash s.data []

/-- The client-side windowing loop of `GetFilesystemsSlice`
(`for count, share := range shares { if count >= offset && count < offset+limit { ... append } }`). -/
def windowGo {α : Type} : List α → Nat → Int → Int → List α
  | [], _, _, _ => []
  | x :: tl, count, offset, limit =>
    if offset ≤ (count : Int) ∧ (count : Int) < offset + limit then
      x :: windowGo tl (count + 1) offset limit
    else
      windowGo tl (count + 1) offset limit

/-- `GetFilesystemsSlice` from `pkg/ns/api.go`: validates `limit`/`offset`
bounds and the three-component parent path, then requests the full
`listShares` collection (embedded as the static parameter `shares`) and
returns the client-side window `[offset, offset+limit)` of it. -/
def GetFilesystemsSlice (shares : List Share_v1) (parent : String)
    (limit offset : Int) : Except GoErr (List Filesystem) :=
  if limit ≤ 0 ∨ nsFilesystemListLimit ≤ limit then
    .error (.validation ("GetFilesystemsSlice(): parameter 'limit' must be greater that 0 and less than 100, got: " ++ toString limit))
  else if offset < 0 then
    .error (.validation ("GetFilesystemsSlice(): parameter 'offset' must be greater or equal to 0, got: " ++ toString offset))
  else if (splitPath parent).length ≠ 3 then
    .error (.validation ("Parameter 'parent' is invalid: " ++ parent))
  else
    .ok ((windowGo shares 0 offset limit).map Share_v1toFilesystem)

/-- Modelled from the spec (§4.3, appliance boundary): the NEF
`/storage/volumes` endpoint supports true server-side `offset`/`limit`
parameters; its handler is not part of this repository, so the appliance
is modelled as returning the window `[offset, offset+limit)` of the static
backing collection. -/
def nefVolumesWindow (vols : List Volume) (limit offset : Int) : List Volume :=
  (vols.drop offset.toNat).take limit.toNat

/-- `GetVolumesSlice` from `pkg/ns/api.go`: validates `limit`/`offset`
bounds, then requests `/storage/volumes` with the given `parent`, `limit`
and `offset` (server-side windowing, see `nefVolumesWindow`). -/
def GetVolumesSlice (vols : List Volume) (parent : String)
    (limit offset : Int) : Except GoErr (List Volume) :=
  if limit ≤ 0 ∨ nsFilesystemListLimit ≤ limit then
    .error (.validation ("GetVolumesSlice(): parameter 'limit' must be greater that 0 and less than 100, got: " ++ toString limit))
  else if offset < 0 then
    .error (.validation ("GetVolumesSlice(): parameter 'offset' must be greater or equal to 0, got: " ++ toString offset))
  else
    let _ := parent
    .ok (nefVolumesWindow vols limit offset)

/-! ### Window lemmas: the Go index filter equals `drop`/`take` -/

theorem windowGo_nil {α : Type} (c : Nat) (off lim : Int) :
    windowGo ([] : List α) c off lim = [] := rfl

theorem windowGo_past_end {α : Type} (l : List α) (c : Nat) (off lim : Int)
    (h : off + lim ≤ (c : Int)) : windowGo l c off lim = [] := by
  induction l generalizing c with
  | nil => rfl
  | cons x tl ih =>
    have hnot : ¬(off ≤ (c : Int) ∧ (c : Int) < off + lim) := by
      rintro ⟨-, hlt⟩
      omega
    simp only [windowGo, if_neg hnot]
    exact ih (c + 1) (by push_cast; omega)

theorem windowGo_inside {α : Type} (l : List α) (c : Nat) (off lim : Int)
    (h₁ : off ≤ (c : Int)) (h₂ : (c : Int) < off + lim) :
    windowGo l c off lim = l.take ((off + lim).toNat - c) := by
  induction l generalizing c with
  | nil => simp [windowGo]
  | cons x tl ih =>
    have hc : c < (off + lim).toNat := by omega
    simp only [windowGo, if_pos (And.intro h₁ h₂)]
    by_cases h₃ : ((c : Int) + 1) < off + lim
    · have h₁' : off ≤ ((c + 1 : Nat) : Int) := by push_cast; omega
      have h₂' : ((c + 1 : Nat) : Int) < off + lim := by push_cast; omega
      rw [ih (c + 1) h₁' h₂']
      have ht : (off + lim).toNat - c = ((off + lim).toNat - (c + 1)) + 1 := by omega
      rw [ht, List.take_succ_cons]
    · have hend : off + lim ≤ ((c + 1 : Nat) : Int) := by push_cast; omega
      rw [windowGo_past_end tl (c + 1) off lim hend]
      have ht : (off + lim).toNat - c = 1 := by
        have hT : (off + lim).toNat ≤ c + 1 := by omega
        omega
      rw [ht, List.take_succ_cons, List.take_zero]

theorem windowGo_skip {α : Type} (k : Nat) (l : List α) (c : Nat) (off lim : Int)
    (h : (c : Int) + (k : Int) ≤ off) :
    windowGo l c off lim = windowGo (l.drop k) (c + k) off lim := by
  induction k generalizing l c with
  | zero => simp
  | succ k ih =>
    cases l with
    | nil => simp [windowGo_nil]
    | cons x tl =>
      have hnot : ¬(off ≤ (c : Int) ∧ (c : Int) < off + lim) := by
        rintro ⟨hle, -⟩
        omega
      simp only [windowGo, if_neg hnot, List.drop_succ_cons]
      have := ih tl (c + 1) (by push_cast at h ⊢; omega)
      rw [this]
      congr 1
      omega

theorem windowGo_eq_drop_take {α : Type} (l : List α) (off lim : Int)
    (hoff : 0 ≤ off) :
    windowGo l 0 off lim = (l.drop off.toNat).take lim.toNat := by
  have hskip := windowGo_skip off.toNat l 0 off lim (by omega)
  rw [hskip, Nat.zero_add]
  rcases le_or_lt lim 0 with hlim | hlim
  · rw [windowGo_past_end _ _ _ _ (by omega)]
    have : lim.toNat = 0 := by omega
    rw [this, List.take_zero]
  · rw [windowGo_inside _ _ _ _ (by omega) (by omega)]
    congr 1
    omega

/-! ### Cursor pagination emulator (`GetFilesystems`, `GetVolumes`,
`GetFilesystemsWithStartingToken`, `GetVolumesWithStartingToken`).

The Go outer loops (`for lastResultCount >= nsFilesystemListLimit`) have no
structural termination measure, so they are embedded with a fuel parameter;
every caller passes `collection.length + 2`, an upper bound on the number
of iterations any run can take (each continued iteration needs a slice of
at least 100 items, so iterations never exceed `length/100 + 2`). -/

/-- The `GetFilesystems`/`GetVolumes` outer loop from `pkg/ns/api.go`:
`offset := 0; lastResultCount := nsFilesystemListLimit;
for lastResultCount >= nsFilesystemListLimit { slice; append; update }`. -/
def pagedAllLoop {α : Type} (slice : Int → Except GoErr (List α)) :
    Nat → Int → Int → List α → Except GoErr (List α)
  | 0, _, _, acc => .ok acc
  | fuel + 1, offset, lastResultCount, acc =>
    if nsFilesystemListLimit ≤ lastResultCount then
      match slice offset with
      | .error e => .error e
      | .ok s =>
        pagedAllLoop slice fuel (offset + (s.length : Int)) (s.length : Int) (acc ++ s)
    else
      .ok acc

/-- `GetFilesystems` from `pkg/ns/api.go`: pages through `listShares` slices
of size `nsFilesystemListLimit - 1`. -/
def GetFilesystems (shares : List Share_v1) (parent : String) :
    Except GoErr (List Filesystem) :=
  pagedAllLoop (fun offset => GetFilesystemsSlice shares parent (nsFilesystemListLimit - 1) offset)
    (shares.length + 2) 0 nsFilesystemListLimit []

/-- `GetVolumes` from `pkg/ns/api.go`: pages through `/storage/volumes`
slices of size `nsFilesystemListLimit - 1`. -/
def GetVolumes (vols : List Volume) (parent : String) :
    Except GoErr (List Volume) :=
  pagedAllLoop (fun offset => GetVolumesSlice vols parent (nsFilesystemListLimit - 1) offset)
    (vols.length + 2) 0 nsFilesystemListLimit []

/-- The inner `for _, fs := range slice` loop of the starting-token
variants: once the token was found, items are collected until `limit` is
reached, at which point `nextToken` is set to the collected item's path and
the loop breaks; before that, items are only compared against the token. -/
def collectStep {α : Type} (pathOf : α → String) (token : String) (limit : Int) :
    List α → Bool → List α → String → List α × Bool × String
  | [], found, acc, nextToken => (acc, found, nextToken)
  | x :: tl, found, acc, nextToken =>
    if found then
      if ((acc ++ [x]).length : Int) = limit then
        (acc ++ [x], found, pathOf x)
      else
        collectStep pathOf token limit tl found (acc ++ [x]) nextToken
    else if pathOf x = token then
      collectStep pathOf token limit tl true acc nextToken
    else
      collectStep pathOf token limit tl found acc nextToken

/-- The outer loop of `GetFilesystemsWithStartingToken` /
`GetVolumesWithStartingToken`:
`for (noLimit || len(items) < limit) && lastResultCount >= nsFilesystemListLimit`. -/
def pagedTokenLoop {α : Type} (pathOf : α → String)
    (slice : Int → Except GoErr (List α)) (token : String) (limit : Int) :
    Nat → Int → Int → Bool → List α → String → Except GoErr (List α × String)
  | 0, _, _, _, acc, nextToken => .ok (acc, nextToken)
  | fuel + 1, offset, lastResultCount, found, acc, nextToken =>
    if (limit = 0 ∨ (acc.length : Int) < limit) ∧ nsFilesystemListLimit ≤ lastResultCount then
      match slice offset with
      | .error e => .error e
      | .ok s =>
        pagedTokenLoop pathOf slice token limit fuel
          (offset + (s.length : Int)) (s.length : Int)
          (collectStep pathOf token limit s found acc nextToken).2.1
          (collectStep pathOf token limit s found acc nextToken).1
          (collectStep pathOf token limit s found acc nextToken).2.2
    else
      .ok (acc, nextToken)

/-- `GetFilesystemsWithStartingToken` from `pkg/ns/api.go`: lists
filesystems after the given starting token, at most `limit` of them
(`limit = 0` means no limit), returning a next token when the limit was
reached. -/
def GetFilesystemsWithStartingToken (shares : List Share_v1)
    (parent startingToken : String) (limit : Int) :
    Except GoErr (List Filesystem × String) :=
  pagedTokenLoop Filesystem.path
    (fun offset => GetFilesystemsSlice shares parent (nsFilesystemListLimit - 1) offset)
    startingToken limit (shares.length + 2) 0 nsFilesystemListLimit
    (if startingToken = "" then true else false) [] ""

/-- `GetVolumesWithStartingToken` from `pkg/ns/api.go`: the volume twin of
`GetFilesystemsWithStartingToken`. -/
def GetVolumesWithStartingToken (vols : List Volume)
    (parent startingToken : String) (limit : Int) :
    Except GoErr (List Volume × String) :=
  pagedTokenLoop Volume.path
    (fun offset => GetVolumesSlice vols parent (nsFilesystemListLimit - 1) offset)
    startingToken limit (vols.length + 2) 0 nsFilesystemListLimit
    (if startingToken = "" then true else false) [] ""

/-! ### Slice characterisation lemmas -/

theorem getFilesystemsSlice_ok {shares : List Share_v1} {parent : String}
    {limit offset : Int} {s : List Filesystem}
    (hlim : 0 < limit) (hlim' : limit < nsFilesystemListLimit) (hoff : 0 ≤ offset)
    (h : GetFilesystemsSlice shares parent limit offset = .ok s) :
    s = ((shares.map Share_v1toFilesystem).drop offset.toNat).take limit.toNat := by
  unfold GetFilesystemsSlice at h
  rw [if_neg (by omega), if_neg (by omega)] at h
  by_cases hp : (splitPath parent).length ≠ 3
  · rw [if_pos hp] at h
    exact absurd h (by simp)
  · rw [if_neg hp] at h
    have := Except.ok.inj h
    subst this
    rw [windowGo_eq_drop_take shares offset limit hoff, List.map_take, List.map_drop]

theorem getVolumesSlice_ok {vols : List Volume} {parent : String}
    {limit offset : Int} {s : List Volume}
    (hlim : 0 < limit) (hlim' : limit < nsFilesystemListLimit) (hoff : 0 ≤ offset)
    (h : GetVolumesSlice vols parent limit offset = .ok s) :
    s = (vols.drop offset.toNat).take limit.toNat := by
  unfold GetVolumesSlice at h
  rw [if_neg (by omega), if_neg (by omega)] at h
  exact (Except.ok.inj h).symm

theorem getFilesystemsSlice_len {shares : List Share_v1} {parent : String}
    {limit offset : Int} {s : List Filesystem}
    (hlim : 0 < limit) (hlim' : limit < nsFilesystemListLimit) (hoff : 0 ≤ offset)
    (h : GetFilesystemsSlice shares parent limit offset = .ok s) :
    s.length ≤ limit.toNat := by
  rw [getFilesystemsSlice_ok hlim hlim' hoff h]
  exact List.length_take_le _ _

theorem getVolumesSlice_len {vols : List Volume} {parent : String}
    {limit offset : Int} {s : List Volume}
    (hlim : 0 < limit) (hlim' : limit < nsFilesystemListLimit) (hoff : 0 ≤ offset)
    (h : GetVolumesSlice vols parent limit offset = .ok s) :
    s.length ≤ limit.toNat := by
  rw [getVolumesSlice_ok hlim hlim' hoff h]
  exact List.length_take_le _ _

/-! ### Outer-loop characterisation -/

theorem pagedAllLoop_succ {α : Type} (slice : Int → Except GoErr (List α))
    (fuel : Nat) (offset lastResultCount : Int) (acc : List α) :
    pagedAllLoop slice (fuel + 1) offset lastResultCount acc =
      if nsFilesystemListLimit ≤ lastResultCount then
        match slice offset with
        | .error e => .error e
        | .ok s =>
          pagedAllLoop slice fuel (offset + (s.length : Int)) (s.length : Int) (acc ++ s)
      else
        .ok acc := rfl

theorem pagedAllLoop_stop {α : Type} (slice : Int → Except GoErr (List α))
    (fuel : Nat) (offset lastResultCount : Int) (acc : List α)
    (h : lastResultCount < nsFilesystemListLimit) :
    pagedAllLoop slice (fuel + 1) offset lastResultCount acc = .ok acc := by
  rw [pagedAllLoop_succ, if_neg (not_le.mpr h)]

/-- The `GetFilesystems` loop degenerates to its first slice: every slice is
requested with `limit = nsFilesystemListLimit - 1 = 99`, hence holds at most
99 items, while the loop continues only when a slice held at least 100. -/
theorem getFilesystems_char (shares : List Share_v1) (parent : String) :
    GetFilesystems shares parent =
      GetFilesystemsSlice shares parent (nsFilesystemListLimit - 1) 0 := by
  unfold GetFilesystems
  rw [show shares.length + 2 = (shares.length + 1) + 1 from rfl, pagedAllLoop_succ,
    if_pos (le_refl nsFilesystemListLimit)]
  split
  next e heq => rw [heq]
  next s heq =>
    have hlen : s.length ≤ 99 := by
      have h99 : (nsFilesystemListLimit - 1).toNat = 99 := by decide
      have := getFilesystemsSlice_len (by decide) (by decide) (by decide) heq
      omega
    rw [heq, pagedAllLoop_stop _ _ _ _ _ (by simp only [nsFilesystemListLimit]; omega)]
    simp

/-- The `GetVolumes` loop degenerates to its first slice, for the same
reason as `getFilesystems_char`. -/
theorem getVolumes_char (vols : List Volume) (parent : String) :
    GetVolumes vols parent =
      GetVolumesSlice vols parent (nsFilesystemListLimit - 1) 0 := by
  unfold GetVolumes
  rw [show vols.length + 2 = (vols.length + 1) + 1 from rfl, pagedAllLoop_succ,
    if_pos (le_refl nsFilesystemListLimit)]
  split
  next e heq => rw [heq]
  next s heq =>
    have hlen : s.length ≤ 99 := by
      have h99 : (nsFilesystemListLimit - 1).toNat = 99 := by decide
      have := getVolumesSlice_len (by decide) (by decide) (by decide) heq
      omega
    rw [heq, pagedAllLoop_stop _ _ _ _ _ (by simp only [nsFilesystemListLimit]; omega)]
    simp

/-- True exactly on a fail-fast validation error result. -/
def isValidationError {α : Type} : Except GoErr α → Bool
  | .error (.validation _) => true
  | _ => false

/-- Claim C4: for `1 ≤ limit < MAX_PAGE` and `0 ≤ offset`, the slice
fetchers return at most `limit` items, all drawn from the backing
collection's window starting at `offset`; for out-of-bounds `limit` or
`offset` they return a validation error whose value does not depend on the
backing collection (no request is consulted). -/
theorem c4_slice_window (shares : List Share_v1) (vols : List Volume)
    (parent : String) (limit offset : Int) :
    (1 ≤ limit → limit < nsFilesystemListLimit → 0 ≤ offset →
      (∀ fss, GetFilesystemsSlice shares parent limit offset = .ok fss →
        fss.length ≤ limit.toNat ∧
        fss = ((shares.map Share_v1toFilesystem).drop offset.toNat).take limit.toNat) ∧
      (∀ vs, GetVolumesSlice vols parent limit offset = .ok vs →
        vs.length ≤ limit.toNat ∧
        vs = (vols.drop offset.toNat).take limit.toNat)) ∧
    (limit < 1 ∨ nsFilesystemListLimit ≤ limit ∨ offset < 0 →
      isValidationError (GetFilesystemsSlice shares parent limit offset) = true ∧
      isValidationError (GetVolumesSlice vols parent limit offset) = true ∧
      (∀ (shares' : List Share_v1) (vols' : List Volume),
        GetFilesystemsSlice shares' parent limit offset =
          GetFilesystemsSlice shares parent limit offset ∧
        GetVolumesSlice vols' parent limit offset =
          GetVolumesSlice vols parent limit offset)) := by
  constructor
  · intro h1 h2 h3
    constructor
    · intro fss h
      have hok := getFilesystemsSlice_ok (by omega) h2 h3 h
      exact ⟨by rw [hok]; exact List.length_take_le _ _, hok⟩
    · intro vs h
      have hok := getVolumesSlice_ok (by omega) h2 h3 h
      exact ⟨by rw [hok]; exact List.length_take_le _ _, hok⟩
  · intro hbad
    by_cases hb : limit ≤ 0 ∨ nsFilesystemListLimit ≤ limit
    · refine ⟨?_, ?_, fun shares' vols' => ⟨?_, ?_⟩⟩ <;>
        simp only [GetFilesystemsSlice, GetVolumesSlice, if_pos hb, isValidationError]
    · have hoff : offset < 0 := by omega
      refine ⟨?_, ?_, fun shares' vols' => ⟨?_, ?_⟩⟩ <;>
        simp only [GetFilesystemsSlice, GetVolumesSlice, if_neg hb, if_pos hoff,
          isValidationError]

/-- Concrete shares used by witnesses. -/
def shA : Share_v1 := ⟨"p", "d", "a", "p/d/a", "/mnt/a", 10, 20, true⟩

def shB : Share_v1 := ⟨"p", "d", "b", "p/d/b", "/mnt/b", 11, 21, true⟩

def shC : Share_v1 := ⟨"p", "d", "c", "p/d/c", "/mnt/c", 12, 22, true⟩

def shares3 : List Share_v1 := [shA, shB, shC]

/-- Concrete volumes used by witnesses. -/
def volA : Volume := ⟨"p/g/a", 1, 2, 3⟩

def volB : Volume := ⟨"p/g/b", 4, 5, 6⟩

def volC : Volume := ⟨"p/g/c", 7, 8, 9⟩

def vols3 : List Volume := [volA, volB, volC]

/-- Witness for claim C4 at `limit = 2`, `offset = 1` on a three-element
collection. -/
theorem c4_slice_window_witness :
    ([Share_v1toFilesystem shB, Share_v1toFilesystem shC].length ≤ (2 : Int).toNat ∧
      [Share_v1toFilesystem shB, Share_v1toFilesystem shC] =
        ((shares3.map Share_v1toFilesystem).drop (1 : Int).toNat).take (2 : Int).toNat) ∧
    ([volB, volC].length ≤ (2 : Int).toNat ∧
      [volB, volC] = (vols3.drop (1 : Int).toNat).take (2 : Int).toNat) := by
  have h := (c4_slice_window shares3 vols3 "p/local/d" 2 1).1
    (by decide) (by decide) (by decide)
  exact ⟨h.1 _ rfl, h.2 _ rfl⟩

/-- A static collection of 120 identical shares (claim C1 failing input). -/
def shares120 : List Share_v1 := List.replicate 120 shA

/-- A static collection of 120 identical volumes (claim C1 failing input). -/
def vols120 : List Volume := List.replicate 120 volA

/-- Claim C1 (code bug): on a static backing collection of 120 items the
list-all operations return only the first 99 items.  Slices are requested
with `limit = nsFilesystemListLimit - 1 = 99`, so a slice never holds the
`≥ 100` items the loop condition `lastResultCount >= nsFilesystemListLimit`
requires to continue, and the loop stops after its first page. -/
theorem c1_pagination_truncates :
    shares120.length = 120 ∧
    GetFilesystems shares120 "p/local/d" =
      .ok ((shares120.map Share_v1toFilesystem).take 99) ∧
    ((shares120.map Share_v1toFilesystem).take 99).length = 99 ∧
    vols120.length = 120 ∧
    GetVolumes vols120 "p/local/d" = .ok (vols120.take 99) ∧
    (vols120.take 99).length = 99 :=
  ⟨rfl, rfl, rfl, rfl, rfl, rfl⟩

/-! ### Collect-loop lemmas -/

theorem collectStep_skip {α : Type} (pathOf : α → String) (token : String)
    (limit : Int) (l : List α) (hl : token ∉ l.map pathOf)
    (acc : List α) (tok : String) :
    collectStep pathOf token limit l false acc tok = (acc, false, tok) := by
  induction l with
  | nil => rfl
  | cons x tl ih =>
    simp only [List.map_cons, List.mem_cons, not_or] at hl
    have hx : ¬(pathOf x = token) := fun h => hl.1 h.symm
    simp only [collectStep, Bool.false_eq_true, if_false, if_neg hx]
    exact ih hl.2

theorem collectStep_found_all {α : Type} (pathOf : α → String) (token : String)
    {limit : Int} (hlim : limit ≤ 0) (l : List α) :
    ∀ (acc : List α) (tok : String),
      collectStep pathOf token limit l true acc tok = (acc ++ l, true, tok) := by
  induction l with
  | nil => intro acc tok; simp [collectStep]
  | cons x tl ih =>
    intro acc tok
    have hne : ¬(((acc ++ [x]).length : Int) = limit) := by
      simp only [List.length_append, List.length_cons, List.length_nil]
      push_cast
      omega
    simp only [collectStep, if_true, if_neg hne, ih]
    simp

theorem collectStep_found_take {α : Type} (pathOf : α → String) (token : String)
    {limit : Int} (hlim : 0 < limit) (l : List α) :
    ∀ (acc : List α) (tok : String), ((acc.length : Int) < limit) →
      (collectStep pathOf token limit l true acc tok).1 =
        acc ++ l.take (limit.toNat - acc.length) := by
  induction l with
  | nil => intro acc tok _; simp [collectStep]
  | cons x tl ih =>
    intro acc tok hacc
    by_cases heq : (((acc ++ [x]).length : Int) = limit)
    · simp only [collectStep, if_true, if_pos heq]
      have h1 : limit.toNat - acc.length = 1 := by
        simp only [List.length_append, List.length_cons, List.length_nil] at heq
        omega
      rw [h1, List.take_succ_cons, List.take_zero]
    · simp only [collectStep, if_true, if_neg heq]
      have hacc' : (((acc ++ [x]).length : Int) < limit) := by
        simp only [List.length_append, List.length_cons, List.length_nil] at heq ⊢
        push_cast at heq ⊢
        omega
      rw [ih (acc ++ [x]) tok hacc']
      have hk : limit.toNat - acc.length = (limit.toNat - (acc ++ [x]).length) + 1 := by
        simp only [List.length_append, List.length_cons, List.length_nil]
        omega
      rw [hk, List.append_assoc, List.singleton_append, List.take_succ_cons]

/-! ### Token-loop characterisation -/

theorem pagedTokenLoop_succ {α : Type} (pathOf : α → String)
    (slice : Int → Except GoErr (List α)) (token : String) (limit : Int)
    (fuel : Nat) (offset lastResultCount : Int) (found : Bool)
    (acc : List α) (nextToken : String) :
    pagedTokenLoop pathOf slice token limit (fuel + 1) offset lastResultCount
        found acc nextToken =
      if (limit = 0 ∨ (acc.length : Int) < limit) ∧
          nsFilesystemListLimit ≤ lastResultCount then
        match slice offset with
        | .error e => .error e
        | .ok s =>
          pagedTokenLoop pathOf slice token limit fuel
            (offset + (s.length : Int)) (s.length : Int)
            (collectStep pathOf token limit s found acc nextToken).2.1
            (collectStep pathOf token limit s found acc nextToken).1
            (collectStep pathOf token limit s found acc nextToken).2.2
      else
        .ok (acc, nextToken) := rfl

theorem pagedTokenLoop_stop {α : Type} (pathOf : α → String)
    (slice : Int → Except GoErr (List α)) (token : String) (limit : Int)
    (fuel : Nat) (offset lastResultCount : Int) (found : Bool)
    (acc : List α) (nextToken : String)
    (h : ¬((limit = 0 ∨ (acc.length : Int) < limit) ∧
        nsFilesystemListLimit ≤ lastResultCount)) :
    pagedTokenLoop pathOf slice token limit fuel offset lastResultCount
        found acc nextToken = .ok (acc, nextToken) := by
  cases fuel with
  | zero => rfl
  | succ fuel => rw [pagedTokenLoop_succ, if_neg h]

theorem windowGo_subset {α : Type} (l : List α) (c : Nat) (off lim : Int) :
    windowGo l c off lim ⊆ l := by
  induction l generalizing c with
  | nil => simp [windowGo]
  | cons x tl ih =>
    by_cases h : off ≤ (c : Int) ∧ (c : Int) < off + lim
    · simp only [windowGo, if_pos h]
      exact List.cons_subset_cons x (ih (c + 1))
    · simp only [windowGo, if_neg h]
      exact (ih (c + 1)).trans (List.subset_cons_self x tl)

/-- Claim C6: with empty starting token, the token variant returns exactly
the first `limit` items of `GetFilesystems` (all of them when `limit = 0`,
which means no limit); remote and validation failures coincide as well. -/
theorem c6_empty_token_is_take (shares : List Share_v1) (parent : String)
    (limit : Int) (hlim : 0 ≤ limit) :
    (GetFilesystemsWithStartingToken shares parent "" limit).map Prod.fst =
      (GetFilesystems shares parent).map
        (fun l => if limit = 0 then l else l.take limit.toNat) := by
  rw [getFilesystems_char]
  show (pagedTokenLoop Filesystem.path
      (fun offset => GetFilesystemsSlice shares parent (nsFilesystemListLimit - 1) offset)
      "" limit (shares.length + 2) 0 nsFilesystemListLimit true [] "").map Prod.fst = _
  rw [show shares.length + 2 = (shares.length + 1) + 1 from rfl, pagedTokenLoop_succ,
    if_pos (by refine ⟨?_, le_refl _⟩; simp only [List.length_nil]; omega)]
  split
  next e heq => rw [heq]; rfl
  next s heq =>
    rw [heq]
    have hlen : s.length ≤ 99 := by
      have h99 : (nsFilesystemListLimit - 1).toNat = 99 := by decide
      have := getFilesystemsSlice_len (by decide) (by decide) (by decide) heq
      omega
    have hstop : ¬((limit = 0 ∨
        (((collectStep Filesystem.path "" limit s true [] "").1.length : Int) < limit)) ∧
        nsFilesystemListLimit ≤ (s.length : Int)) := by
      rintro ⟨-, h2⟩
      have h100 : (100 : Int) ≤ (s.length : Int) := by
        simpa [nsFilesystemListLimit] using h2
      omega
    rw [pagedTokenLoop_stop _ _ _ _ _ _ _ _ _ _ hstop]
    rcases eq_or_lt_of_le hlim with hz | hpos
    · subst hz
      rw [collectStep_found_all Filesystem.path "" (le_refl 0) s]
      rfl
    · have h1 := collectStep_found_take Filesystem.path "" hpos s [] ""
        (by simp only [List.length_nil]; push_cast; omega)
      simp only [List.length_nil, Nat.sub_zero, List.nil_append] at h1
      simp only [Except.map, h1, if_neg (by omega : ¬limit = 0)]

/-- Witness for claim C6 on a three-element collection with `limit = 2`. -/
theorem c6_empty_token_is_take_witness :
    (GetFilesystemsWithStartingToken shares3 "p/d/x" "" 2).map Prod.fst =
      (GetFilesystems shares3 "p/d/x").map
        (fun l => if (2 : Int) = 0 then l else l.take (2 : Int).toNat) :=
  c6_empty_token_is_take shares3 "p/d/x" 2 (by decide)

/-- Claim C7: a non-empty starting token matching no item's path yields
zero items and an empty next token, for any limit, on both token
variants. -/
theorem c7_token_not_found (shares : List Share_v1) (vols : List Volume)
    (parent token : String) (limFs limVol : Int)
    (htok : token ≠ "")
    (hfs : token ∉ shares.map Share_v1.path)
    (hvol : token ∉ vols.map Volume.path)
    (hparent : (splitPath parent).length = 3) :
    GetFilesystemsWithStartingToken shares parent token limFs = .ok ([], "") ∧
    GetVolumesWithStartingToken vols parent token limVol = .ok ([], "") := by
  constructor
  · show pagedTokenLoop Filesystem.path
        (fun offset => GetFilesystemsSlice shares parent (nsFilesystemListLimit - 1) offset)
        token limFs (shares.length + 2) 0 nsFilesystemListLimit
        (if token = "" then true else false) [] "" = .ok ([], "")
    rw [if_neg htok]
    by_cases hc : limFs = 0 ∨ ((([] : List Filesystem).length : Int) < limFs)
    · have hs : GetFilesystemsSlice shares parent (nsFilesystemListLimit - 1) 0 =
          .ok ((windowGo shares 0 0 (nsFilesystemListLimit - 1)).map Share_v1toFilesystem) := by
        unfold GetFilesystemsSlice
        rw [if_neg (by decide), if_neg (by decide), if_neg (by simp [hparent])]
      set s := (windowGo shares 0 0 (nsFilesystemListLimit - 1)).map Share_v1toFilesystem
        with hs_def
      have hnotin : token ∉ s.map Filesystem.path := by
        intro hmem
        rcases List.mem_map.mp hmem with ⟨f, hf, hfp⟩
        rcases List.mem_map.mp (by rw [hs_def] at hf; exact hf) with ⟨sh, hsh, hshf⟩
        have : sh.path = token := by rw [← hfp, ← hshf]; rfl
        exact hfs (List.mem_map.mpr ⟨sh, windowGo_subset shares 0 0 _ hsh, this⟩)
      have hlen : s.length ≤ 99 := by
        have h99 : (nsFilesystemListLimit - 1).toNat = 99 := by decide
        have := getFilesystemsSlice_len (by decide) (by decide) (by decide) hs
        omega
      rw [show shares.length + 2 = (shares.length + 1) + 1 from rfl, pagedTokenLoop_succ,
        if_pos ⟨hc, le_refl _⟩, hs]
      show pagedTokenLoop Filesystem.path _ token limFs (shares.length + 1)
          ((0 : Int) + (s.length : Int)) (s.length : Int)
          (collectStep Filesystem.path token limFs s false [] "").2.1
          (collectStep Filesystem.path token limFs s false [] "").1
          (collectStep Filesystem.path token limFs s false [] "").2.2 = .ok ([], "")
      rw [collectStep_skip Filesystem.path token limFs s hnotin [] ""]
      exact pagedTokenLoop_stop _ _ _ _ _ _ _ _ _ _ (by
        rintro ⟨-, h2⟩
        have h100 : (100 : Int) ≤ (s.length : Int) := by
          simpa [nsFilesystemListLimit] using h2
        omega)
    · exact pagedTokenLoop_stop _ _ _ _ _ _ _ _ _ _ (by rintro ⟨h1, -⟩; exact hc h1)
  · show pagedTokenLoop Volume.path
        (fun offset => GetVolumesSlice vols parent (nsFilesystemListLimit - 1) offset)
        token limVol (vols.length + 2) 0 nsFilesystemListLimit
        (if token = "" then true else false) [] "" = .ok ([], "")
    rw [if_neg htok]
    by_cases hc : limVol = 0 ∨ ((([] : List Volume).length : Int) < limVol)
    · have hs : GetVolumesSlice vols parent (nsFilesystemListLimit - 1) 0 =
          .ok (nefVolumesWindow vols (nsFilesystemListLimit - 1) 0) := by
        unfold GetVolumesSlice
        rw [if_neg (by decide), if_neg (by decide)]
      set s := nefVolumesWindow vols (nsFilesystemListLimit - 1) 0 with hs_def
      have hnotin : token ∉ s.map Volume.path := by
        intro hmem
        rcases List.mem_map.mp hmem with ⟨v, hv, hvp⟩
        have hv' : v ∈ vols := by
          rw [hs_def] at hv
          exact List.drop_subset _ _ (List.take_subset _ _ hv)
        exact hvol (List.mem_map.mpr ⟨v, hv', hvp⟩)
      have hlen : s.length ≤ 99 := by
        have h99 : (nsFilesystemListLimit - 1).toNat = 99 := by decide
        have := getVolumesSlice_len (by decide) (by decide) (by decide) hs
        omega
      rw [show vols.length + 2 = (vols.length + 1) + 1 from rfl, pagedTokenLoop_succ,
        if_pos ⟨hc, le_refl _⟩, hs]
      show pagedTokenLoop Volume.path _ token limVol (vols.length + 1)
          ((0 : Int) + (s.length : Int)) (s.length : Int)
          (collectStep Volume.path token limVol s false [] "").2.1
          (collectStep Volume.path token limVol s false [] "").1
          (collectStep Volume.path token limVol s false [] "").2.2 = .ok ([], "")
      rw [collectStep_skip Volume.path token limVol s hnotin [] ""]
      exact pagedTokenLoop_stop _ _ _ _ _ _ _ _ _ _ (by
        rintro ⟨-, h2⟩
        have h100 : (100 : Int) ≤ (s.length : Int) := by
          simpa [nsFilesystemListLimit] using h2
        omega)
    · exact pagedTokenLoop_stop _ _ _ _ _ _ _ _ _ _ (by rintro ⟨h1, -⟩; exact hc h1)

/-- Witness for claim C7 with token `"zzz"` on three-element collections. -/
theorem c7_token_not_found_witness :
    GetFilesystemsWithStartingToken shares3 "p/d/x" "zzz" 2 = .ok ([], "") ∧
    GetVolumesWithStartingToken vols3 "p/d/x" "zzz" 5 = .ok ([], "") :=
  c7_token_not_found shares3 vols3 "p/d/x" "zzz" 2 5
    (by decide) (by decide) (by decide) (by decide)

/-! ### Request executor (`doAuthRequest` in `pkg/ns/types.go`) -/

/-- A response body as seen by `parseNefError`: either not valid JSON for
the error shape (`json.Unmarshal` fails), or a parsed
`{code, details, message}` record (absent fields unmarshal to `""`). -/
inductive Body where
  | invalid
  | parsed (code message : String)
deriving DecidableEq

/-- `parseNefError` from `pkg/ns/types.go`: `nil` when the body does not
unmarshal or carries no message; otherwise a `NefError` wrapping the code
and the message behind the given diagnostic text. -/
def parseNefError (body : Body) (pre : String) : Option NefError :=
  match body with
  | .invalid => none
  | .parsed code message =>
    if message = "" then none
    else some { code := code, message := pre ++ ": " ++ message }

/-- One result of `rest.Client.Send`: HTTP status, body, transport error. -/
structure SendResult where
  status : Int
  body : Body
  transportErr : Option String
deriving DecidableEq

/-- Errors surfaced by `doAuthRequest`: a transport error, a classified
appliance error, or the generic non-2xx error with no parseable body. -/
inductive ReqError where
  | transport (e : String)
  | nef (e : NefError)
  | generic (status : Int) (body : Body)
deriving DecidableEq

/-- Result of one `doAuthRequest` call, together with the number of
transport `Send` calls it issued. -/
structure DoAuthResult where
  body : Body
  error : Option ReqError
  sends : Nat
deriving DecidableEq

/-- The tail of `doAuthRequest` after the retry decision (`pkg/ns/types.go`
lines 372-390): HTTP 202 is the async-accept path (no error), statuses
`>= 300` are classified through `parseNefError`, falling back to the
generic status-code error; everything else keeps the nil error. -/
def finishResponse (status : Int) (body : Body) : Option ReqError :=
  if status = 202 then none
  else if 300 ≤ status then
    match parseNefError body "request error" with
    | some e => some (.nef e)
    | none => some (.generic status body)
  else none

/-- `doAuthRequest` from `pkg/ns/types.go`: sends the request, and exactly
when the first response has status 401 and its body classifies as an auth
error, re-sends the identical request once; the transport is embedded as a
function from the send index (0 = first, 1 = retry) to its result. -/
def doAuthRequest (send : Nat → SendResult) : DoAuthResult :=
  match (send 0).transportErr with
  | some e => { body := (send 0).body, error := some (.transport e), sends := 1 }
  | none =>
    if (send 0).status = 401 ∧
        IsAuthNefError (parseNefError (send 0).body "checking login status") = true then
      match (send 1).transportErr with
      | some e => { body := (send 1).body, error := some (.transport e), sends := 2 }
      | none =>
        { body := (send 1).body
          error := finishResponse (send 1).status (send 1).body
          sends := 2 }
    else
      { body := (send 0).body
        error := finishResponse (send 0).status (send 0).body
        sends := 1 }

/-- Claim C2: `doAuthRequest` issues at most two `Send` calls; a second is
issued exactly when the first response was delivered (no transport error),
has status 401, and its body classifies as an auth error; and in that case
the surfaced body and error come from the second response alone (no
further retries). -/
theorem doAuthRequest_first_transport_err {send : Nat → SendResult} {e : String}
    (h : (send 0).transportErr = some e) :
    doAuthRequest send =
      { body := (send 0).body, error := some (.transport e), sends := 1 } := by
  unfold doAuthRequest
  rw [h]

theorem doAuthRequest_retry_transport_err {send : Nat → SendResult} {e : String}
    (h0 : (send 0).transportErr = none)
    (hr : (send 0).status = 401 ∧
      IsAuthNefError (parseNefError (send 0).body "checking login status") = true)
    (h1 : (send 1).transportErr = some e) :
    doAuthRequest send =
      { body := (send 1).body, error := some (.transport e), sends := 2 } := by
  unfold doAuthRequest
  rw [h0]
  show (if _ ∧ _ then _ else _) = _
  rw [if_pos hr, h1]

theorem doAuthRequest_retry_done {send : Nat → SendResult}
    (h0 : (send 0).transportErr = none)
    (hr : (send 0).status = 401 ∧
      IsAuthNefError (parseNefError (send 0).body "checking login status") = true)
    (h1 : (send 1).transportErr = none) :
    doAuthRequest send =
      { body := (send 1).body
        error := finishResponse (send 1).status (send 1).body
        sends := 2 } := by
  unfold doAuthRequest
  rw [h0]
  show (if _ ∧ _ then _ else _) = _
  rw [if_pos hr, h1]

theorem doAuthRequest_no_retry {send : Nat → SendResult}
    (h0 : (send 0).transportErr = none)
    (hnr : ¬((send 0).status = 401 ∧
      IsAuthNefError (parseNefError (send 0).body "checking login status") = true)) :
    doAuthRequest send =
      { body := (send 0).body
        error := finishResponse (send 0).status (send 0).body
        sends := 1 } := by
  unfold doAuthRequest
  rw [h0]
  show (if _ ∧ _ then _ else _) = _
  rw [if_neg hnr]

/-- Claim C2: `doAuthRequest` issues at most two `Send` calls; a second is
issued exactly when the first response was delivered (no transport error),
has status 401, and its body classifies as an auth error; and in that case
the surfaced body and error come from the second response alone (no
further retries). -/
theorem c2_retry_policy (send : Nat → SendResult) :
    (doAuthRequest send).sends ≤ 2 ∧
    ((doAuthRequest send).sends = 2 ↔
      (send 0).transportErr = none ∧ (send 0).status = 401 ∧
      IsAuthNefError (parseNefError (send 0).body "checking login status") = true) ∧
    ((send 0).transportErr = none → (send 0).status = 401 →
      IsAuthNefError (parseNefError (send 0).body "checking login status") = true →
      (doAuthRequest send).body = (send 1).body ∧
      (doAuthRequest send).error =
        (match (send 1).transportErr with
         | some e => some (.transport e)
         | none => finishResponse (send 1).status (send 1).body)) := by
  cases h0 : (send 0).transportErr with
  | some e =>
    rw [doAuthRequest_first_transport_err h0]
    exact ⟨Nat.le_succ 1, ⟨fun h => by simp at h, fun ⟨h, _, _⟩ => Option.noConfusion h⟩,
      fun h _ _ => Option.noConfusion h⟩
  | none =>
    by_cases hretry : (send 0).status = 401 ∧
        IsAuthNefError (parseNefError (send 0).body "checking login status") = true
    · cases h1 : (send 1).transportErr with
      | some e =>
        rw [doAuthRequest_retry_transport_err h0 hretry h1]
        exact ⟨le_refl 2, ⟨fun _ => ⟨rfl, hretry.1, hretry.2⟩, fun _ => rfl⟩,
          fun _ _ _ => ⟨rfl, rfl⟩⟩
      | none =>
        rw [doAuthRequest_retry_done h0 hretry h1]
        exact ⟨le_refl 2, ⟨fun _ => ⟨rfl, hretry.1, hretry.2⟩, fun _ => rfl⟩,
          fun _ _ _ => ⟨rfl, rfl⟩⟩
    · rw [doAuthRequest_no_retry h0 hretry]
      refine ⟨Nat.le_succ 1, ⟨fun h => by simp at h, fun ⟨_, h2, h3⟩ => absurd ⟨h2, h3⟩ hretry⟩,
        fun _ h2 h3 => absurd ⟨h2, h3⟩ hretry⟩

/-- A transport whose first response is an auth-expired 401 and whose
second response succeeds. -/
def sendAuthRetry : Nat → SendResult
  | 0 => { status := 401, body := .parsed "EAUTH" "session expired", transportErr := none }
  | _ => { status := 200, body := .parsed "" "", transportErr := none }

/-- Witness for claim C2: on the concrete transport `sendAuthRetry` the
retry is taken and exactly two sends are issued. -/
theorem c2_retry_policy_witness : (doAuthRequest sendAuthRetry).sends = 2 :=
  ((c2_retry_policy sendAuthRetry).2.1).mpr ⟨rfl, rfl, rfl⟩

/-! ### NFS / SMB share creation (`CreateNfsShare`, `CreateSmbShare`) -/

/-- `NfsRuleList` from `pkg/ns/types.go`. -/
structure NfsRuleList where
  etype : String
  entity : String
  mask : Int
deriving DecidableEq

/-- `NfsAcl` from `pkg/ns/api.go`. -/
structure NfsAcl where
  hostType : String
  host : String
  accessMode : String
  rootAccess : Bool
deriving DecidableEq

/-- `SmbAcl` from `pkg/ns/api.go`. -/
structure SmbAcl where
  hostType : String
  host : String
  accessMode : String
deriving DecidableEq

/-- `CreateNfsShareParams` from `pkg/ns/api.go`. -/
structure CreateNfsShareParams where
  filesystem : String
  readWriteList : List NfsRuleList
  readOnlyList : List NfsRuleList
deriving DecidableEq

/-- `CreateSmbShareParams` from `pkg/ns/api.go`. -/
structure CreateSmbShareParams where
  filesystem : String
  shareName : String
  readWriteList : List NfsRuleList
  readOnlyList : List NfsRuleList
deriving DecidableEq

/-- `NfsShare` from `pkg/ns/api.go` (payload of `setNFSSharingOnShare`). -/
structure NfsShare where
  path : String
  enabled : Bool
deriving DecidableEq

/-- `SmbShare` from `pkg/ns/api.go` (payload of `setSMBSharingOnShare`). -/
structure SmbShare where
  path : String
  enabled : Bool
  name : String
  guest : Bool
deriving DecidableEq

/-- `SetNfsParams` from `pkg/ns/api.go` (payload of
`setNFSNetworkACLsOnShare`). -/
structure SetNfsParams where
  path : String
  acl : List NfsAcl
deriving DecidableEq

/-- `SetSmbParams` from `pkg/ns/api.go` (payload of
`setSMBNetworkACLsOnShare`). -/
structure SetSmbParams where
  path : String
  acl : List SmbAcl
deriving DecidableEq

/-- The two requests `CreateNfsShare` issues. -/
inductive NfsRequest where
  | sharing (payload : NfsShare)
  | acls (payload : SetNfsParams)
deriving DecidableEq

/-- The two requests `CreateSmbShare` issues. -/
inductive SmbRequest where
  | sharing (payload : SmbShare)
  | acls (payload : SetSmbParams)
deriving DecidableEq

/-- One NFS ACL entry as built by the `CreateNfsShare` loops: FQDN/domain
entries become `FQDN` hosts, everything else is an `IP` host with an
optional `/mask`. -/
def nfsAclOf (mode : String) (r : NfsRuleList) : NfsAcl :=
  if r.etype = "fqdn" ∨ r.etype = "domain" then
    { hostType := "FQDN", host := r.entity, accessMode := mode, rootAccess := true }
  else
    { hostType := "IP"
      host := if 0 < r.mask then r.entity ++ "/" ++ toString r.mask else r.entity
      accessMode := mode
      rootAccess := true }

/-- One SMB ACL entry as built by the `CreateSmbShare` loops. -/
def smbAclOf (mode : String) (r : NfsRuleList) : SmbAcl :=
  if r.etype = "fqdn" ∨ r.etype = "domain" then
    { hostType := "FQDN", host := r.entity, accessMode := mode }
  else
    { hostType := "IP"
      host := if 0 < r.mask then r.entity ++ "/" ++ toString r.mask else r.entity
      accessMode := mode }

/-- `CreateNfsShare` from `pkg/ns/api.go`: after validation it issues
`setNFSSharingOnShare` with the return value dropped on the floor (source
line 633 calls `p.sendRequest` as a statement), then builds the ACL list
and returns the result of `setNFSNetworkACLsOnShare` alone. -/
def CreateNfsShare (params : CreateNfsShareParams)
    (send : NfsRequest → Option GoErr) : Option GoErr :=
  if params.filesystem = "" then
    some (.validation "CreateNfsShareParams.Filesystem is required")
  else
    let _ := send (.sharing { path := params.filesystem, enabled := true })
    send (.acls
      { path := params.filesystem
        acl := params.readWriteList.map (nfsAclOf "rw") ++
          params.readOnlyList.map (nfsAclOf "ro") })

/-- `GetDefaultSmbShareName` from `pkg/ns/types.go`: drop one leading
slash, then turn every remaining slash into an underscore. -/
def GetDefaultSmbShareName (path : String) : String :=
  let trimmed := match path.data with
    | '/' :: rest => rest
    | l => l
  String.mk (trimmed.map fun c => if c = '/' then '_' else c)

/-- `CreateSmbShare` from `pkg/ns/api.go`: after validation it issues
`setSMBSharingOnShare` with the return value dropped on the floor (source
line 757), then builds the ACL list and returns the result of
`setSMBNetworkACLsOnShare` alone. -/
def CreateSmbShare (params : CreateSmbShareParams)
    (send : SmbRequest → Option GoErr) : Option GoErr :=
  if params.filesystem = "" then
    some (.validation "CreateSmbShareParams.Filesystem is required")
  else
    let sharename := if params.shareName = "" then
        GetDefaultSmbShareName params.filesystem
      else params.shareName
    let _ := send (.sharing
      { path := params.filesystem, enabled := true, name := sharename, guest := false })
    send (.acls
      { path := params.filesystem
        acl := params.readWriteList.map (smbAclOf "rw") ++
          params.readOnlyList.map (smbAclOf "ro") })

/-- A transport on which the share-enabling request fails and the ACL
request succeeds. -/
def nfsSendEnableFails : NfsRequest → Option GoErr
  | .sharing _ => some (.generic "setNFSSharingOnShare failed")
  | .acls _ => none

/-- Counterexample to claim C3 as stated: during `CreateNfsShare` the
request executor returns an error for the `setNFSSharingOnShare` request,
yet the operation reports success — the error is silently discarded. -/
theorem c3_counterexample :
    CreateNfsShare { filesystem := "p/d/a", readWriteList := [], readOnlyList := [] }
      nfsSendEnableFails = none ∧
    nfsSendEnableFails (.sharing { path := "p/d/a", enabled := true }) =
      some (.generic "setNFSSharingOnShare failed") :=
  ⟨rfl, rfl⟩

/-- Claim C3 as amended: every error of the request executor is propagated
except the already-exists case of the idempotent iSCSI creates and the
share-enabling requests of `CreateNfsShare`/`CreateSmbShare`, whose errors
are discarded; those operations return exactly the ACL request's result. -/
theorem c3_amended (nfsParams : CreateNfsShareParams)
    (smbParams : CreateSmbShareParams)
    (sendNfs : NfsRequest → Option GoErr) (sendSmb : SmbRequest → Option GoErr)
    (hn : nfsParams.filesystem ≠ "") (hs : smbParams.filesystem ≠ "") :
    CreateNfsShare nfsParams sendNfs =
      sendNfs (.acls
        { path := nfsParams.filesystem
          acl := nfsParams.readWriteList.map (nfsAclOf "rw") ++
            nfsParams.readOnlyList.map (nfsAclOf "ro") }) ∧
    CreateSmbShare smbParams sendSmb =
      sendSmb (.acls
        { path := smbParams.filesystem
          acl := smbParams.readWriteList.map (smbAclOf "rw") ++
            smbParams.readOnlyList.map (smbAclOf "ro") }) := by
  constructor
  · unfold CreateNfsShare
    rw [if_neg hn]
  · unfold CreateSmbShare
    rw [if_neg hs]

/-- Witness for the amended claim C3 at concrete parameters. -/
theorem c3_amended_witness :
    CreateNfsShare { filesystem := "p/d/a", readWriteList := [], readOnlyList := [] }
      nfsSendEnableFails =
      nfsSendEnableFails (.acls { path := "p/d/a", acl := [] }) ∧
    CreateSmbShare
      { filesystem := "p/d/a", shareName := "", readWriteList := [], readOnlyList := [] }
      (fun _ => none) =
      (fun (_ : SmbRequest) => none) (.acls { path := "p/d/a", acl := [] }) := by
  have h := c3_amended
    { filesystem := "p/d/a", readWriteList := [], readOnlyList := [] }
    { filesystem := "p/d/a", shareName := "", readWriteList := [], readOnlyList := [] }
    nfsSendEnableFails (fun _ => none) (by decide) (by decide)
  exact h

/-! ### Filesystem destroy (`DestroyFilesystem` and the appliance
`deleteShare` boundary) -/

/-- One appliance filesystem with its snapshot and clone dependencies
(spec §3, snapshot dependency graph). -/
structure ApplianceFs where
  path : String
  snapshots : List String
  clones : List String
deriving DecidableEq

/-- `DestroyFilesystemParams` from `pkg/ns/api.go`. -/
structure DestroyFilesystemParams where
  destroySnapshots : Bool
  promoteMostRecentCloneIfExists : Bool
deriving DecidableEq

/-- `DeleteShareParams` from `pkg/ns/api.go` (payload of `deleteShare`). -/
structure DeleteShareParams where
  path : String
  recursive : Bool
  errorIfNotFound : Bool
  promote : Bool
deriving DecidableEq

/-- Modelled from the spec (§4.5, appliance boundary): the appliance's
`deleteShare` handler is not part of this repository.  Per the spec state
machine it refuses with an in-use error when the filesystem has snapshots
and the delete is not recursive, refuses when clones depend on it and no
promotion was requested, and otherwise removes the filesystem. -/
def applianceDeleteShare (st : List ApplianceFs) (params : DeleteShareParams) :
    List ApplianceFs × Option GoErr :=
  match st.find? (fun fs => fs.path == params.path) with
  | none =>
    if params.errorIfNotFound then
      (st, some (.remote { code := "ENOENT", message := "share not found" }))
    else (st, none)
  | some fs =>
    if fs.snapshots ≠ [] ∧ params.recursive = false then
      (st, some (.remote { code := "EBUSY", message := "filesystem has snapshots" }))
    else if fs.clones ≠ [] ∧ params.promote = false then
      (st, some (.remote { code := "EBUSY", message := "snapshots have clones" }))
    else
      (st.filter (fun f => f.path != params.path), none)

/-- `DestroyFilesystem` from `pkg/ns/api.go`: issues `deleteShare` with
`Recursive := DestroySnapshots`, `ErrorIfNotFound := false` and
`Promote := PromoteMostRecentCloneIfExists`. -/
def DestroyFilesystem (st : List ApplianceFs) (path : String)
    (params : DestroyFilesystemParams) : List ApplianceFs × Option GoErr :=
  applianceDeleteShare st
    { path := path
      recursive := params.destroySnapshots
      errorIfNotFound := false
      promote := params.promoteMostRecentCloneIfExists }

theorem applianceDeleteShare_busy_snapshots {st : List ApplianceFs}
    {params : DeleteShareParams} {fs : ApplianceFs}
    (hfind : st.find? (fun f => f.path == params.path) = some fs)
    (hsnap : fs.snapshots ≠ []) (hrec : params.recursive = false) :
    applianceDeleteShare st params =
      (st, some (.remote { code := "EBUSY", message := "filesystem has snapshots" })) := by
  unfold applianceDeleteShare
  rw [hfind]
  show (if _ ∧ _ then _ else _) = _
  rw [if_pos ⟨hsnap, hrec⟩]

/-- Claim C5: destroying a filesystem that has snapshots with
`DestroySnapshots = false` fails with an in-use error and leaves the
appliance state (the filesystem and its snapshots) unchanged. -/
theorem c5_destroy_with_snapshots_in_use (st : List ApplianceFs) (path : String)
    (params : DestroyFilesystemParams) (fs : ApplianceFs)
    (hfind : st.find? (fun f => f.path == path) = some fs)
    (hsnap : fs.snapshots ≠ [])
    (hds : params.destroySnapshots = false) :
    (DestroyFilesystem st path params).1 = st ∧
    IsBusyNefError (DestroyFilesystem st path params).2 = true := by
  unfold DestroyFilesystem
  rw [applianceDeleteShare_busy_snapshots hfind hsnap hds]
  exact ⟨rfl, rfl⟩

/-- A one-filesystem appliance whose filesystem has a snapshot. -/
def stSnap : List ApplianceFs := [{ path := "p/d/a", snapshots := ["s1"], clones := [] }]

/-- Witness for claim C5 on the concrete appliance state `stSnap`. -/
theorem c5_destroy_with_snapshots_in_use_witness :
    (DestroyFilesystem stSnap "p/d/a"
      { destroySnapshots := false, promoteMostRecentCloneIfExists := false }).1 = stSnap ∧
    IsBusyNefError (DestroyFilesystem stSnap "p/d/a"
      { destroySnapshots := false, promoteMostRecentCloneIfExists := false }).2 = true :=
  c5_destroy_with_snapshots_in_use stSnap "p/d/a"
    { destroySnapshots := false, promoteMostRecentCloneIfExists := false }
    { path := "p/d/a", snapshots := ["s1"], clones := [] } rfl (by decide) rfl

/-! ### iSCSI creation operations -/

/-- `Portal` from `pkg/ns/types.go`. -/
structure Portal where
  address : String
  port : Int
deriving DecidableEq

/-- `CreateISCSITargetParams` from `pkg/ns/api.go`. -/
structure CreateISCSITargetParams where
  name : String
  portals : List Portal
deriving DecidableEq

/-- `CreateTargetGroupParams` from `pkg/ns/api.go`. -/
structure CreateTargetGroupParams where
  name : String
  members : List String
deriving DecidableEq

/-- `CreateLunMappingParams` from `pkg/ns/api.go`. -/
structure CreateLunMappingParams where
  hostGroup : String
  volume : String
  targetGroup : String
deriving DecidableEq

/-- Outcomes of the four iSCSI endpoints a creation call can hit:
`/san/iscsi/targets`, `/san/targetgroups`, `/san/targetgroups/<name>`
(the update), and `/san/lunMappings`. -/
structure IscsiTransport where
  targets : Option GoErr
  targetgroups : Option GoErr
  targetgroupUpdate : String → Option GoErr
  lunMappings : Option GoErr

/-- `CreateISCSITarget` from `pkg/ns/api.go`: non-already-exists errors are
returned, an already-exists error is success. -/
def CreateISCSITarget (params : CreateISCSITargetParams)
    (tr : IscsiTransport) : Option GoErr :=
  if params.name = "" then
    some (.validation "Parameters 'Name' and 'Portal' are required")
  else if ¬(IsAlreadyExistNefError tr.targets = true) then tr.targets
  else none

/-- `CreateUpdateTargetGroup` from `pkg/ns/api.go`: on an already-exists
error from the create it issues an update of the group's members and
returns that update's result; other create errors are returned. -/
def CreateUpdateTargetGroup (params : CreateTargetGroupParams)
    (tr : IscsiTransport) : Option GoErr :=
  if params.name = "" ∨ params.members = [] then
    some (.validation "Parameters 'Name' and 'Members' are required")
  else
    match tr.targetgroups with
    | none => none
    | some e =>
      if ¬(IsAlreadyExistNefError (some e) = true) then some e
      else tr.targetgroupUpdate params.name

/-- `CreateLunMapping` from `pkg/ns/api.go`: non-already-exists errors are
returned, an already-exists error is success. -/
def CreateLunMapping (params : CreateLunMappingParams)
    (tr : IscsiTransport) : Option GoErr :=
  if params.hostGroup = "" ∨ params.volume = "" ∨ params.targetGroup = "" then
    some (.validation "Parameters 'HostGroup', 'Target' and 'TargetGroup' are required")
  else if ¬(IsAlreadyExistNefError tr.lunMappings = true) then tr.lunMappings
  else none

/-- A transport where the target-group create hits already-exists and the
follow-up update fails. -/
def trUpdateFails : IscsiTransport :=
  { targets := none
    targetgroups := some (.remote { code := "EEXIST", message := "exists" })
    targetgroupUpdate := fun _ => some (.generic "update failed")
    lunMappings := none }

/-- Counterexample to claim C8 as stated: the `/san/targetgroups` create
fails with an already-exists error, yet `CreateUpdateTargetGroup` returns
an error (the follow-up update's failure), not success. -/
theorem c8_counterexample :
    IsAlreadyExistNefError trUpdateFails.targetgroups = true ∧
    CreateUpdateTargetGroup { name := "tg", members := ["m1"] } trUpdateFails =
      some (.generic "update failed") :=
  ⟨rfl, rfl⟩

/-- Claim C8 as amended: `CreateISCSITarget` and `CreateLunMapping` return
success on an already-exists error and propagate any other error;
`CreateUpdateTargetGroup` reacts to already-exists by issuing a member
update and returning its result (success when the update succeeds), and
propagates any other create error. -/
theorem c8_amended (pt : CreateISCSITargetParams) (pg : CreateTargetGroupParams)
    (pl : CreateLunMappingParams) (tr : IscsiTransport)
    (hpt : ¬(pt.name = ""))
    (hpg : ¬(pg.name = "" ∨ pg.members = []))
    (hpl : ¬(pl.hostGroup = "" ∨ pl.volume = "" ∨ pl.targetGroup = "")) :
    (IsAlreadyExistNefError tr.targets = true → CreateISCSITarget pt tr = none) ∧
    (IsAlreadyExistNefError tr.targets = false → CreateISCSITarget pt tr = tr.targets) ∧
    (IsAlreadyExistNefError tr.lunMappings = true → CreateLunMapping pl tr = none) ∧
    (IsAlreadyExistNefError tr.lunMappings = false →
      CreateLunMapping pl tr = tr.lunMappings) ∧
    (IsAlreadyExistNefError tr.targetgroups = true →
      CreateUpdateTargetGroup pg tr = tr.targetgroupUpdate pg.name) ∧
    (IsAlreadyExistNefError tr.targetgroups = false →
      CreateUpdateTargetGroup pg tr = tr.targetgroups) := by
  refine ⟨?_, ?_, ?_, ?_, ?_, ?_⟩
  · intro h
    unfold CreateISCSITarget
    rw [if_neg hpt, if_neg (by simp [h])]
  · intro h
    unfold CreateISCSITarget
    rw [if_neg hpt, if_pos (by simp [h])]
  · intro h
    unfold CreateLunMapping
    rw [if_neg hpl, if_neg (by simp [h])]
  · intro h
    unfold CreateLunMapping
    rw [if_neg hpl, if_pos (by simp [h])]
  · intro h
    unfold CreateUpdateTargetGroup
    rw [if_neg hpg]
    cases htg : tr.targetgroups with
    | none => rw [htg] at h; simp [IsAlreadyExistNefError] at h
    | some e =>
      show (if _ then _ else _) = _
      rw [htg] at h
      rw [if_neg (by simp [h])]
  · intro h
    unfold CreateUpdateTargetGroup
    rw [if_neg hpg]
    cases htg : tr.targetgroups with
    | none => rfl
    | some e =>
      show (if _ then _ else _) = _
      rw [htg] at h
      rw [if_pos (by simp [h])]

/-- Witness for the amended claim C8 on `trUpdateFails`. -/
theorem c8_amended_witness :
    (IsAlreadyExistNefError trUpdateFails.targets = true →
      CreateISCSITarget { name := "t1", portals := [] } trUpdateFails = none) ∧
    (IsAlreadyExistNefError trUpdateFails.targets = false →
      CreateISCSITarget { name := "t1", portals := [] } trUpdateFails =
        trUpdateFails.targets) ∧
    (IsAlreadyExistNefError trUpdateFails.lunMappings = true →
      CreateLunMapping { hostGroup := "hg", volume := "v", targetGroup := "tg" }
        trUpdateFails = none) ∧
    (IsAlreadyExistNefError trUpdateFails.lunMappings = false →
      CreateLunMapping { hostGroup := "hg", volume := "v", targetGroup := "tg" }
        trUpdateFails = trUpdateFails.lunMappings) ∧
    (IsAlreadyExistNefError trUpdateFails.targetgroups = true →
      CreateUpdateTargetGroup { name := "tg", members := ["m1"] } trUpdateFails =
        trUpdateFails.targetgroupUpdate "tg") ∧
    (IsAlreadyExistNefError trUpdateFails.targetgroups = false →
      CreateUpdateTargetGroup { name := "tg", members := ["m1"] } trUpdateFails =
        trUpdateFails.targetgroups) :=
  c8_amended { name := "t1", portals := [] } { name := "tg", members := ["m1"] }
    { hostGroup := "hg", volume := "v", targetGroup := "tg" } trUpdateFails
    (by decide) (by decide) (by decide)

/-! ### `GetVolume` and `DestroyVolume` -/

/-- Result of running a Go function body that may hit a runtime panic. -/
inductive GoCall (α : Type) where
  | panic
  | ret (a : α)
deriving DecidableEq

/-- `GetVolume` from `pkg/ns/api.go`, parameterised by the outcome of its
`/storage/volumes` request (decoded data list and error).  On the error
path the source returns `response.Data[0], err` — an index into the data
list taken before checking that the list is non-empty; an out-of-range
index is a Go runtime panic. -/
def GetVolume (path : String) (respData : List Volume) (reqErr : Option GoErr) :
    GoCall (Volume × Option GoErr) :=
  if path = "" then
    .ret ({ path := "", bytesAvailable := 0, bytesUsed := 0, volumeSize := 0 },
      some (.validation "Volume path is empty"))
  else
    match reqErr with
    | some e =>
      match respData[0]? with
      | none => .panic
      | some v => .ret (v, some e)
    | none =>
      if respData.length = 0 then
        .ret ({ path := "", bytesAvailable := 0, bytesUsed := 0, volumeSize := 0 },
          some (.remote
            { code := "ENOENT"
              message := "VolumeGroup '" ++ path ++ "' not found" }))
      else
        match respData[0]? with
        | none => .panic
        | some v => .ret (v, none)

/-- Claim C9 (code bug): when the request fails and the decoded data list
is empty — the normal shape of a failed request — `GetVolume` panics on
`response.Data[0]` instead of returning the error; with a non-empty list
the error path still evaluates the index.  The non-error paths behave. -/
theorem c9_getvolume_panics :
    GetVolume "p/g/v1" [] (some (.generic "request failed")) = .panic ∧
    GetVolume "p/g/v1" [volA] (some (.generic "request failed")) =
      .ret (volA, some (.generic "request failed")) ∧
    GetVolume "p/g/v1" [volA] none = .ret (volA, none) :=
  ⟨rfl, rfl, rfl⟩

/-- `DestroyVolumeParams` from `pkg/ns/api.go`. -/
structure DestroyVolumeParams where
  destroySnapshots : Bool
  promoteMostRecentCloneIfExists : Bool
deriving DecidableEq

/-- `destroyVolume` (lower-case) from `pkg/ns/api.go`: validates the path,
then issues the delete request for `path` with the `snapshots` query
parameter; the transport is embedded as a function of exactly those two
request ingredients. -/
def destroyVolume (send : String → Bool → Option GoErr) (path : String)
    (destroySnapshots : Bool) : Option GoErr :=
  if path = "" then some (.validation "Filesystem path is required")
  else send path destroySnapshots

/-- `DestroyVolume` from `pkg/ns/api.go`: delegates to `destroyVolume`,
passing only `params.DestroySnapshots`; the
`PromoteMostRecentCloneIfExists` field is never read. -/
def DestroyVolume (send : String → Bool → Option GoErr) (path : String)
    (params : DestroyVolumeParams) : Option GoErr :=
  match destroyVolume send path params.destroySnapshots with
  | some e => some e
  | none => none

/-- Claim C10: `DestroyVolume` is independent of
`PromoteMostRecentCloneIfExists` — for every transport, path and
`DestroySnapshots` value, flipping the promote flag changes nothing. -/
theorem c10_promote_flag_ignored (send : String → Bool → Option GoErr)
    (path : String) (ds : Bool) :
    DestroyVolume send path
        { destroySnapshots := ds, promoteMostRecentCloneIfExists := true } =
      DestroyVolume send path
        { destroySnapshots := ds, promoteMostRecentCloneIfExists := false } :=
  rfl
